import Mathlib

/-!
# The document generator: `/api/generate` and the download name

A shallow embedding of `server/server.js` (the Express handler of
`POST /api/generate`) and of the file-name extraction in
`frontend/src/App.jsx` (`handleSubmit`).

The handler is sequential code around calls into code that is not part of
the repository (PizZip, Docxtemplater, libreoffice-convert, Node's `path`
and `fs`, Express).  Each such call is represented by its outcome for the
run being described, collected in `Env`; the handler itself (the `try`
block, the `catch` block, the `finally` block, the format branch, the file
name and the headers) is translated line by line.

The calls that can throw inside the `try` block are: opening the archive,
parsing the data, rendering, printing `outputFormat` into the file name,
converting, `fs.writeFileSync`, and `res.setHeader` for the
`Content-Disposition` value.  `fs.readFileSync` of the file that multer
has just staged, `fs.unlinkSync` of it, `doc.getZip().generate`,
`res.setHeader` for the fixed MIME types, `res.status` and `res.send` are
taken to return normally.  The elements of `properties.errors` each carry
a string `properties.explanation`.  `console.log` and `console.error` are
left out.  JavaScript strings are Lean strings; the separators and
characters the code looks for are all ASCII.
-/

namespace DocGen

/-! ## Data model -/

/-- A Node `Buffer`. -/
abbrev Bytes := List Nat

/-- One element of `error.properties.errors`; the catch block reads
`err.properties.explanation` of each. -/
structure SubError where
  explanation : String
  deriving DecidableEq, Repr

/-- A thrown value as the catch block of the handler sees it: the test
`error.properties && error.properties.errors` is truthy (`itemized`) or not
(`plain`). -/
inductive JsError where
  | itemized (errors : List SubError)
  | plain (message : String)
  deriving DecidableEq, Repr

/-- The `req.file` object that multer leaves after staging an upload. -/
structure UploadedFile where
  path : String
  originalname : String
  deriving DecidableEq, Repr

/-- The value of a text field of the multipart form as multer leaves it in
`req.body`: a string, or, for a field sent with brackets in its name or
sent more than once, an array or an object.  Of a value that is not a
string the handler can only observe that it is truthy, that it is not
`=== 'pdf'`, and what a template literal makes of it: `printed`, which is
`none` when the conversion to a string throws. -/
inductive FieldValue where
  | str (s : String)
  | other (printed : Option String)
  deriving DecidableEq, Repr

/-- The text fields of the multipart form, `req.body`. -/
structure FormBody where
  data : Option FieldValue
  outputFormat : Option FieldValue
  deriving DecidableEq, Repr

/-- What the handler reads of `req`. -/
structure Request where
  file : Option UploadedFile
  body : FormBody
  deriving DecidableEq, Repr

/-- The argument of `res.send`: a string or a `Buffer`. -/
inductive Payload where
  | text (s : String)
  | buffer (b : Bytes)
  deriving DecidableEq, Repr

/-- The response as the handler leaves it: `res.status`, the headers set
with `res.setHeader` in order, and the argument of `res.send`. -/
structure Response where
  status : Nat
  headers : List (String × String)
  payload : Payload
  deriving DecidableEq, Repr

/-- The effects of the handler outside the response, in program order.
`writeFile` is a call of `fs.writeFileSync`; `done` tells whether it
returned normally or threw. -/
inductive Effect where
  | readFile (path : String)
  | convert (input : Bytes) (format : String)
  | writeFile (path : String) (data : Bytes) (done : Bool)
  | unlink (path : String)
  deriving DecidableEq, Repr

/-- The outcomes, for one run, of what the handler takes from outside the
repository.

* `dirname`: the value of `__dirname`.
* `basename`, `extname`, `join`: Node's `path.basename`, `path.extname`,
  `path.join`.
* `pizzip`: `new PizZip(content)`.
* `docxtemplater`: `new Docxtemplater(zip, ...)`; on success the keys that the
  placeholder tokens of the template refer to.
* `jsonParse`: `JSON.parse(req.body.data)`; on success the value set.
* `render`: `doc.render(data)`.
* `generate`: `doc.getZip().generate(...)`, the rendered package `buf`.
* `convert`: what `libre.convert` hands to its callback, `err` or `done`.
* `writeFile`: `fs.writeFileSync(generatedPath, ...)`.
* `setHeader`: `res.setHeader('Content-Disposition', ...)`. -/
structure Env where
  dirname : String
  basename : String → String → String
  extname : String → String
  join : String → String → String
  pizzip : Except JsError Unit
  docxtemplater : Except JsError (List String)
  jsonParse : Except JsError (List (String × String))
  render : Except JsError Unit
  generate : Bytes
  convert : Except JsError Bytes
  writeFile : Except JsError Unit
  setHeader : Except JsError Unit

/-- What a run of the handler leaves behind. -/
structure Outcome where
  response : Response
  effects : List Effect
  deriving DecidableEq, Repr

/-! ## The handler of `POST /api/generate` -/

/-- The constant `generatedDir`, `path.join(__dirname, 'generated')`. -/
def generatedDir (env : Env) : String := env.join env.dirname "generated"

/-- The MIME type sent with the native package. -/
def docxMime : String :=
  "application/vnd.openxmlformats-officedocument.wordprocessingml.document"

/-- The MIME type sent with a converted document. -/
def pdfMime : String := "application/pdf"

/-- Whether a field value is truthy: every value but the empty string. -/
def FieldValue.truthy : FieldValue → Bool
  | FieldValue.str s => s != ""
  | FieldValue.other _ => true

/-- What a template literal makes of a field value: the string itself, the
printed form of an array or object, or the error thrown by the
conversion. -/
def FieldValue.print : FieldValue → Except JsError String
  | FieldValue.str s => Except.ok s
  | FieldValue.other (some printed) => Except.ok printed
  | FieldValue.other none =>
      Except.error (JsError.plain "Cannot convert object to primitive value")

/-- The constant `outputFormat`: `req.body.outputFormat || 'docx'`. -/
def outputFormat (req : Request) : FieldValue :=
  match req.body.outputFormat with
  | none => FieldValue.str "docx"
  | some v => if v.truthy then v else FieldValue.str "docx"

/-- The constant `outputFileName`, given the printed `outputFormat`:
`path.basename(originalname, path.extname(originalname))`, then
`-generated.`, then the format. -/
def outputFileName (env : Env) (f : UploadedFile) (fmt : String) : String :=
  env.basename f.originalname (env.extname f.originalname) ++ "-generated." ++ fmt

/-- The constant `generatedPath`: `path.join(generatedDir, outputFileName)`. -/
def generatedPath (env : Env) (f : UploadedFile) (fmt : String) : String :=
  env.join (generatedDir env) (outputFileName env f fmt)

/-- The value given to `res.setHeader('Content-Disposition', ...)`. -/
def contentDisposition (name : String) : String :=
  "attachment; filename=" ++ name

/-- The two headers and the body of the success response; the status is
never set on this path, so it is the default 200. -/
def successResponse (name mime : String) (fileToSend : Bytes) : Response :=
  { status := 200
    headers := [("Content-Disposition", contentDisposition name), ("Content-Type", mime)]
    payload := Payload.buffer fileToSend }

/-- The end of the `try` block: `fs.writeFileSync(generatedPath, ...)` in
either branch, then the two `res.setHeader` calls and `res.send`.  `pre`
holds the effects so far. -/
def writeAndSend (env : Env) (gpath name mime : String) (fileToSend : Bytes)
    (pre : List Effect) : List Effect × Except JsError Response :=
  match env.writeFile with
  | Except.error e => (pre ++ [Effect.writeFile gpath fileToSend false], Except.error e)
  | Except.ok _ =>
    match env.setHeader with
    | Except.error e => (pre ++ [Effect.writeFile gpath fileToSend true], Except.error e)
    | Except.ok _ =>
        (pre ++ [Effect.writeFile gpath fileToSend true],
          Except.ok (successResponse name mime fileToSend))

/-- The part of the `try` block after `doc.render(data)` returned: `buf`,
`outputFormat`, the file name (whose template literal prints
`outputFormat`), the format branch with its write, the headers and
`res.send`.  `pre` holds the effects so far. -/
def formatBranch (env : Env) (req : Request) (f : UploadedFile) (pre : List Effect) :
    List Effect × Except JsError Response :=
  let buf := env.generate
  let fmt := outputFormat req
  match fmt.print with
  | Except.error e => (pre, Except.error e)
  | Except.ok ext =>
    let name := outputFileName env f ext
    let gpath := generatedPath env f ext
    if fmt = FieldValue.str "pdf" then
      match env.convert with
      | Except.error e => (pre ++ [Effect.convert buf ".pdf"], Except.error e)
      | Except.ok pdfBuf =>
          writeAndSend env gpath name pdfMime pdfBuf (pre ++ [Effect.convert buf ".pdf"])
    else
      writeAndSend env gpath name docxMime buf pre

/-- The `try` block: the effects it performed, and either the response it
sent or the value it threw. -/
def tryBlock (env : Env) (req : Request) : List Effect × Except JsError Response :=
  match req.file with
  | none => ([], Except.ok { status := 400, headers := [], payload := Payload.text "No file uploaded." })
  | some f =>
    let pre := [Effect.readFile f.path]
    match env.pizzip with
    | Except.error e => (pre, Except.error e)
    | Except.ok _ =>
    match env.docxtemplater with
    | Except.error e => (pre, Except.error e)
    | Except.ok _ =>
    match env.jsonParse with
    | Except.error e => (pre, Except.error e)
    | Except.ok _ =>
    match env.render with
    | Except.error e => (pre, Except.error e)
    | Except.ok _ => formatBranch env req f pre

/-- The text that the catch block builds from an itemized error:
`errors.map(err => err.properties.explanation).join('\n')` after the fixed
lead. -/
def templateErrorText (errors : List SubError) : String :=
  "Template Error: \n" ++ String.intercalate "\n" (errors.map SubError.explanation)

/-- The `catch` block. -/
def catchBlock : JsError → Response
  | JsError.itemized errors =>
      { status := 500, headers := [], payload := Payload.text (templateErrorText errors) }
  | JsError.plain _ =>
      { status := 500, headers := [], payload := Payload.text "An internal server error occurred." }

/-- The `finally` block. -/
def finallyBlock (req : Request) : List Effect :=
  match req.file with
  | some f => [Effect.unlink f.path]
  | none => []

/-- The handler: `try`, then `catch` when the `try` block threw, then
`finally`. -/
def generateHandler (env : Env) (req : Request) : Outcome :=
  let r := tryBlock env req
  { response := match r.2 with
      | Except.ok resp => resp
      | Except.error e => catchBlock e
    effects := r.1 ++ finallyBlock req }

/-! ## Observations on an outcome -/

/-- The paths handed to `fs.unlinkSync`, in order. -/
def unlinkedPaths : List Effect → List String
  | [] => []
  | Effect.unlink p :: rest => p :: unlinkedPaths rest
  | _ :: rest => unlinkedPaths rest

/-- The paths handed to `fs.writeFileSync`, in order, whether the call
returned or threw. -/
def writtenPaths : List Effect → List String
  | [] => []
  | Effect.writeFile p _ _ :: rest => p :: writtenPaths rest
  | _ :: rest => writtenPaths rest

/-- The paths of the calls of `fs.writeFileSync` that returned normally, in
order. -/
def doneWrites : List Effect → List String
  | [] => []
  | Effect.writeFile p _ true :: rest => p :: doneWrites rest
  | _ :: rest => doneWrites rest

/-- The number of calls of `libre.convert`. -/
def convertCalls : List Effect → Nat
  | [] => 0
  | Effect.convert _ _ :: rest => convertCalls rest + 1
  | _ :: rest => convertCalls rest

/-- The value of the `Content-Disposition` header of a response, if set. -/
def dispositionOf (r : Response) : Option String :=
  (r.headers.find? (fun h => h.1 == "Content-Disposition")).map Prod.snd

/-- The keys used by the template that the value set does not define;
keys are compared as they are, case included. -/
def unresolvedKeys (templateKeys : List String) (values : List (String × String)) :
    List String :=
  templateKeys.filter (fun k => !(values.map Prod.fst).contains k)

/-- The stages before the format branch returned normally: the archive
opened (`new PizZip`, `new Docxtemplater`), the data parsed and
`doc.render` returned. -/
def rendered (env : Env) : Bool :=
  env.pizzip.toBool && env.docxtemplater.toBool && env.jsonParse.toBool && env.render.toBool

/-- The run reaches `fs.writeFileSync`: a file was uploaded, the stages
before the format branch returned, `outputFormat` printed into the file
name, and conversion, when `pdf` is requested, produced bytes. -/
def writeReached (env : Env) (req : Request) : Bool :=
  req.file.isSome && rendered env && (outputFormat req).print.toBool &&
    (outputFormat req != FieldValue.str "pdf" || env.convert.toBool)

/-- Every stage that the handler runs for this request returned normally:
the run reaches the write, the write returned, and so did
`res.setHeader`. -/
def allStagesOk (env : Env) (req : Request) : Bool :=
  writeReached env req && env.writeFile.toBool && env.setHeader.toBool

/-! ## The disk -/

/-- The files on disk: path and content. -/
abbrev Disk := List (String × Bytes)

/-- Whether a path names a file on the disk. -/
def Disk.has (d : Disk) (p : String) : Bool := d.any (fun e => e.1 == p)

/-- The disk after one effect: a `writeFileSync` that returned creates or
replaces the file, `unlinkSync` removes it, the others leave the disk
alone; so does, here, a `writeFileSync` that threw. -/
def Disk.step (d : Disk) : Effect → Disk
  | Effect.writeFile p data true => (p, data) :: d.filter (fun e => e.1 != p)
  | Effect.writeFile _ _ false => d
  | Effect.unlink p => d.filter (fun e => e.1 != p)
  | Effect.readFile _ => d
  | Effect.convert _ _ => d

/-- The disk after a sequence of effects. -/
def Disk.run (d : Disk) (effects : List Effect) : Disk := effects.foldl Disk.step d

/-! ## The frontend: the name of the download -/

/-- The scan behind `String.prototype.split` for a non-empty separator:
`skip` counts the characters of a matched separator still to pass, `cur`
holds the piece being read, reversed. -/
def jsSplitGo (sep : List Char) : List Char → Nat → List Char → List (List Char)
  | [], _, cur => [cur.reverse]
  | _ :: rest, skip + 1, cur => jsSplitGo sep rest skip cur
  | c :: rest, 0, cur =>
      if sep.isPrefixOf (c :: rest) then
        cur.reverse :: jsSplitGo sep rest (sep.length - 1) []
      else jsSplitGo sep rest 0 (c :: cur)

/-- The call `s.split(sep)` for a non-empty string `sep`: the pieces of `s`
between the occurrences of `sep`, found left to right without overlap. -/
def jsSplit (s sep : String) : List String :=
  (jsSplitGo sep.data s.data 0 []).map String.mk

/-- The call `s.replace(/"/g, '')`. -/
def stripQuotes (s : String) : String :=
  String.mk (s.data.filter (fun c => c != '"'))

/-- The expression
`header.split('filename=')[1].replace(/"/g, '')` of `handleSubmit`; `none`
when the split has no element at index 1 (the call of `replace` then
throws). -/
def extractFileName (header : String) : Option String :=
  ((jsSplit header "filename=").get? 1).map stripQuotes

/-! ## Node's `path` functions on a POSIX system

Translations of `extname`, `basename`, `normalize` and `join` of
`path.posix` in Node's `lib/path.js`, loop by loop.  They serve the
concrete runs; the theorems hold for whatever `path` functions `Env`
carries. -/

/-- The variables of the loop of `path.posix.extname`; `stop` is the
variable `end`, and `none` stands for the index -1. -/
structure ExtnameScan where
  startDot : Option Nat
  startPart : Nat
  stop : Option Nat
  matchedSlash : Bool
  preDotState : Int
  halted : Bool

/-- One round of the loop of `extname`, at index `i` with character `c`. -/
def extnameStep (st : ExtnameScan) (i : Nat) (c : Char) : ExtnameScan :=
  if st.halted then st
  else if c = '/' then
    if st.matchedSlash then st else { st with startPart := i + 1, halted := true }
  else
    let st1 := if st.stop.isNone then { st with matchedSlash := false, stop := some (i + 1) } else st
    if c = '.' then
      if st1.startDot.isNone then { st1 with startDot := some i }
      else if st1.preDotState ≠ 1 then { st1 with preDotState := 1 } else st1
    else if st1.startDot.isSome then { st1 with preDotState := -1 }
    else st1

/-- The function `path.posix.extname`. -/
def posixExtname (path : String) : String :=
  let cs := path.data
  let st := (List.range cs.length).reverse.foldl
    (fun st i => extnameStep st i (cs.getD i '/'))
    { startDot := none, startPart := 0, stop := none, matchedSlash := true,
      preDotState := 0, halted := false }
  match st.startDot, st.stop with
  | some startDot, some stop =>
      if st.preDotState = 0 ∨
          (st.preDotState = 1 ∧ startDot + 1 = stop ∧ startDot = st.startPart + 1) then ""
      else String.mk ((cs.take stop).drop startDot)
  | _, _ => ""

/-- The variables of the loops of `path.posix.basename`; `stop` is the
variable `end`, and `none` stands for the index -1. -/
structure BasenameScan where
  start : Nat
  stop : Option Nat
  matchedSlash : Bool
  extIdx : Option Nat
  firstNonSlashEnd : Option Nat
  halted : Bool

/-- One round of the first loop of `basename`, the one that matches the
given suffix. -/
def basenameSuffixStep (suffix : List Char) (st : BasenameScan) (i : Nat) (c : Char) :
    BasenameScan :=
  if st.halted then st
  else if c = '/' then
    if st.matchedSlash then st else { st with start := i + 1, halted := true }
  else
    let st1 := if st.firstNonSlashEnd.isNone then
      { st with matchedSlash := false, firstNonSlashEnd := some (i + 1) } else st
    match st1.extIdx with
    | none => st1
    | some k =>
      if c = suffix.getD k '/' then
        if k = 0 then { st1 with extIdx := none, stop := some i }
        else { st1 with extIdx := some (k - 1) }
      else { st1 with extIdx := none, stop := st1.firstNonSlashEnd }

/-- One round of the second loop of `basename`, the one without a suffix. -/
def basenamePlainStep (st : BasenameScan) (i : Nat) (c : Char) : BasenameScan :=
  if st.halted then st
  else if c = '/' then
    if st.matchedSlash then st else { st with start := i + 1, halted := true }
  else if st.stop.isNone then { st with matchedSlash := false, stop := some (i + 1) }
  else st

/-- The function `path.posix.basename` with its second argument. -/
def posixBasename (path suffix : String) : String :=
  let cs := path.data
  let ext := suffix.data
  let init : BasenameScan :=
    { start := 0, stop := none, matchedSlash := true, extIdx := none,
      firstNonSlashEnd := none, halted := false }
  if 0 < ext.length ∧ ext.length ≤ cs.length then
    if suffix = path then ""
    else
      let st := (List.range cs.length).reverse.foldl
        (fun st i => basenameSuffixStep ext st i (cs.getD i '/'))
        { init with extIdx := some (ext.length - 1) }
      let stop :=
        if st.stop = some st.start then st.firstNonSlashEnd.getD 0
        else st.stop.getD cs.length
      String.mk ((cs.take stop).drop st.start)
  else
    let st := (List.range cs.length).reverse.foldl
      (fun st i => basenamePlainStep st i (cs.getD i '/')) init
    match st.stop with
    | none => ""
    | some stop => String.mk ((cs.take stop).drop st.start)

/-- The variables of the loop of `normalizeString`. -/
structure NormalizeScan where
  res : List Char
  lastSegmentLength : Nat
  lastSlash : Int
  dots : Int
  code : Char
  halted : Bool

/-- The index of the last `/` in a text, -1 when there is none. -/
def lastSlashIndex (cs : List Char) : Int :=
  match (List.range cs.length).reverse.find? (fun i => cs.getD i ' ' == '/') with
  | some i => (i : Int)
  | none => -1

/-- The end of a round of `normalizeString` at a separator when the
segment is `..` and nothing can be taken back: `..` is added when the path
may climb above its root. -/
def normalizeAbove (allowAboveRoot : Bool) (st : NormalizeScan) (i : Nat) : NormalizeScan :=
  let st1 := if allowAboveRoot then
      { st with
        res := if st.res.length > 0 then st.res ++ ['/', '.', '.'] else ['.', '.']
        lastSegmentLength := 2 }
    else st
  { st1 with lastSlash := i, dots := 0 }

/-- One round of the loop of `normalizeString`, at index `i`, which runs up
to the length of the path included. -/
def normalizeStep (path : List Char) (allowAboveRoot : Bool) (st : NormalizeScan) (i : Nat) :
    NormalizeScan :=
  if st.halted then st
  else if path.length ≤ i ∧ st.code = '/' then { st with halted := true }
  else
    let c := if i < path.length then path.getD i '/' else '/'
    let st := { st with code := c }
    if c = '/' then
      if st.lastSlash = (i : Int) - 1 ∨ st.dots = 1 then { st with lastSlash := i, dots := 0 }
      else if st.dots = 2 then
        if st.res.length < 2 ∨ st.lastSegmentLength ≠ 2 ∨
            st.res.getD (st.res.length - 1) ' ' ≠ '.' ∨
            st.res.getD (st.res.length - 2) ' ' ≠ '.' then
          if st.res.length > 2 then
            let k := lastSlashIndex st.res
            if k = -1 then
              { st with res := [], lastSegmentLength := 0, lastSlash := i, dots := 0 }
            else
              let res := st.res.take k.toNat
              { st with
                res := res
                lastSegmentLength := ((res.length : Int) - 1 - lastSlashIndex res).toNat
                lastSlash := i
                dots := 0 }
          else if st.res.length ≠ 0 then
            { st with res := [], lastSegmentLength := 0, lastSlash := i, dots := 0 }
          else normalizeAbove allowAboveRoot st i
        else normalizeAbove allowAboveRoot st i
      else
        let segment := (path.take i).drop (st.lastSlash + 1).toNat
        { st with
          res := if st.res.length > 0 then st.res ++ '/' :: segment else segment
          lastSegmentLength := ((i : Int) - st.lastSlash - 1).toNat
          lastSlash := i
          dots := 0 }
    else if c = '.' ∧ st.dots ≠ -1 then { st with dots := st.dots + 1 }
    else { st with dots := -1 }

/-- The function `normalizeString` for the separator `/`. -/
def normalizeString (path : List Char) (allowAboveRoot : Bool) : List Char :=
  ((List.range (path.length + 1)).foldl (normalizeStep path allowAboveRoot)
    { res := [], lastSegmentLength := 0, lastSlash := -1, dots := 0, code := ' ',
      halted := false }).res

/-- The function `path.posix.normalize`. -/
def posixNormalize (path : String) : String :=
  let cs := path.data
  if cs.length = 0 then "."
  else
    let isAbsolute := cs.head? == some '/'
    let trailingSeparator := cs.getLast? == some '/'
    let body := normalizeString cs (!isAbsolute)
    if body.length = 0 then
      if isAbsolute then "/" else if trailingSeparator then "./" else "."
    else
      let body := if trailingSeparator then body ++ ['/'] else body
      String.mk (if isAbsolute then '/' :: body else body)

/-- The function `path.posix.join` with two arguments. -/
def posixJoin (a b : String) : String :=
  if a = "" ∧ b = "" then "."
  else if a = "" then posixNormalize b
  else if b = "" then posixNormalize a
  else posixNormalize (a ++ "/" ++ b)

/-! ## Concrete runs -/

/-- The rendered package of the concrete runs. -/
def sampleBuf : Bytes := [80, 75, 3, 4, 20]

/-- The converted document of the concrete runs. -/
def samplePdf : Bytes := [37, 80, 68, 70]

/-- A run on a POSIX system in which every call returns normally: the
template uses the keys `name` and `amount`, the value set defines `name`
only. -/
def okEnv : Env :=
  { dirname := "/srv/app/server"
    basename := posixBasename
    extname := posixExtname
    join := posixJoin
    pizzip := Except.ok ()
    docxtemplater := Except.ok ["name", "amount"]
    jsonParse := Except.ok [("name", "Ada")]
    render := Except.ok ()
    generate := sampleBuf
    convert := Except.ok samplePdf
    writeFile := Except.ok ()
    setHeader := Except.ok () }

/-- The staged upload of the concrete runs. -/
def sampleFile : UploadedFile :=
  { path := "uploads/1700000000000-letter.docx", originalname := "letter.docx" }

/-- A request with an upload and the given string, if any, in the
`outputFormat` field. -/
def sampleRequest (fmt : Option String) : Request :=
  { file := some sampleFile
    body :=
      { data := some (FieldValue.str "\x7b\"name\":\"Ada\"\x7d")
        outputFormat := fmt.map FieldValue.str } }

/-- A name of 241 letters without an extension. -/
def longName : String := String.mk (List.replicate 241 'a')

/-- The staged upload under the long name; the staged name has 255
characters, the output file name would have 256. -/
def longFile : UploadedFile :=
  { path := "uploads/1700000000000-" ++ longName, originalname := longName }

/-- A request that uploads the file with the long name and gives no
`outputFormat`. -/
def longRequest : Request :=
  { file := some longFile
    body := { data := some (FieldValue.str "\x7b\"name\":\"Ada\"\x7d"), outputFormat := none } }

/-- A run in which `fs.writeFileSync` throws because the file name is too
long for the file system. -/
def longNameEnv : Env :=
  { okEnv with writeFile := Except.error (JsError.plain "ENAMETOOLONG: name too long, open") }

/-- A run in which `fs.writeFileSync` throws because the output path lies
in a directory that does not exist, as for the format `a/b`. -/
def missingDirEnv : Env :=
  { okEnv with writeFile := Except.error (JsError.plain "ENOENT: no such file or directory, open") }

/-- A run in which rendering throws two itemized problems. -/
def itemizedEnv : Env :=
  { okEnv with
    render := Except.error (JsError.itemized
      [{ explanation := "The tag beginning with \"\x7bnam\" is unclosed" },
       { explanation := "The tag \"amount\" is closed by the tag \"total\"" }]) }

/-- A run in which the conversion backend reports an error. -/
def convertFailEnv : Env :=
  { okEnv with convert := Except.error (JsError.plain "soffice exited with code 1") }

/-- A run in which the uploaded archive is corrupt: `new PizZip` throws an
error without `properties.errors`. -/
def corruptEnv : Env :=
  { okEnv with pizzip := Except.error (JsError.plain "Corrupted zip: missing end of central directory") }

/-- A run in which the conversion backend does not answer in time. -/
def timeoutEnv : Env :=
  { okEnv with convert := Except.error (JsError.plain "conversion timed out") }

/-- A run in which the conversion backend is not installed. -/
def unavailableEnv : Env :=
  { okEnv with convert := Except.error (JsError.plain "Could not find soffice binary") }

/-- The disk on which only the staged upload of the concrete runs lies. -/
def sampleDisk : Disk := [("uploads/1700000000000-letter.docx", [80, 75, 5, 6])]

/-! ## Shared lemmas -/

/-- The handler when no file was uploaded. -/
theorem generateHandler_no_file (env : Env) (req : Request) (h : req.file = none) :
    generateHandler env req =
      { response := { status := 400, headers := [], payload := Payload.text "No file uploaded." }
        effects := [] } := by
  simp [generateHandler, tryBlock, finallyBlock, h]

/-- The handler when a stage before the format branch threw `e`. -/
theorem generateHandler_early_throw (env : Env) (req : Request) (f : UploadedFile) (e : JsError)
    (hf : req.file = some f)
    (h : env.pizzip = Except.error e ∨
      (env.pizzip.toBool = true ∧ env.docxtemplater = Except.error e) ∨
      (env.pizzip.toBool = true ∧ env.docxtemplater.toBool = true ∧
        env.jsonParse = Except.error e) ∨
      (env.pizzip.toBool = true ∧ env.docxtemplater.toBool = true ∧
        env.jsonParse.toBool = true ∧ env.render = Except.error e)) :
    generateHandler env req =
      { response := catchBlock e
        effects := [Effect.readFile f.path, Effect.unlink f.path] } := by
  rcases env with ⟨dn, b, x, j, pz, dx, jp, rd, g, cv, wf, sh⟩
  cases pz <;> cases dx <;> cases jp <;> cases rd <;>
    simp_all [generateHandler, tryBlock, finallyBlock, Except.toBool]

/-- The handler when every stage before the format branch returned. -/
theorem generateHandler_rendered (env : Env) (req : Request) (f : UploadedFile)
    (hf : req.file = some f) (hr : rendered env = true) :
    generateHandler env req =
      { response := match (formatBranch env req f [Effect.readFile f.path]).2 with
          | Except.ok resp => resp
          | Except.error e => catchBlock e
        effects := (formatBranch env req f [Effect.readFile f.path]).1 ++ [Effect.unlink f.path] } := by
  rcases env with ⟨dn, b, x, j, pz, dx, jp, rd, g, cv, wf, sh⟩
  cases pz <;> cases dx <;> cases jp <;> cases rd <;>
    simp_all [generateHandler, tryBlock, finallyBlock, Except.toBool, rendered]

/-- When a file was uploaded and a stage before the format branch threw,
the catch block answered and only the read and the unlink took place. -/
theorem generateHandler_not_rendered (env : Env) (req : Request) (f : UploadedFile)
    (hf : req.file = some f) (hr : rendered env = false) :
    ∃ e, generateHandler env req =
      { response := catchBlock e, effects := [Effect.readFile f.path, Effect.unlink f.path] } := by
  rcases env with ⟨dn, b, x, j, pz, dx, jp, rd, g, cv, wf, sh⟩
  cases pz <;> cases dx <;> cases jp <;> cases rd <;>
    simp_all [generateHandler, tryBlock, finallyBlock, Except.toBool, rendered]

/-- The catch block always sets status 500. -/
theorem catchBlock_status (e : JsError) : (catchBlock e).status = 500 := by
  cases e <;> rfl

/-- The catch block sets no header. -/
theorem catchBlock_headers (e : JsError) : (catchBlock e).headers = [] := by
  cases e <;> rfl

/-- The catch block sends a string, never a buffer. -/
theorem catchBlock_payload (e : JsError) (b : Bytes) :
    (catchBlock e).payload ≠ Payload.buffer b := by
  cases e <;> simp [catchBlock]

/-- The write and the headers when both calls return. -/
theorem writeAndSend_ok (env : Env) (gpath name mime : String) (bytes : Bytes)
    (pre : List Effect) (hw : env.writeFile.toBool = true) (hh : env.setHeader.toBool = true) :
    writeAndSend env gpath name mime bytes pre =
      (pre ++ [Effect.writeFile gpath bytes true], Except.ok (successResponse name mime bytes)) := by
  rcases env with ⟨dn, b, x, j, pz, dx, jp, rd, g, cv, wf, sh⟩
  cases wf <;> cases sh <;> simp_all [writeAndSend, Except.toBool]

/-- The write and the headers when one of the two calls throws: the try
block throws, after a write that took place or not. -/
theorem writeAndSend_throw (env : Env) (gpath name mime : String) (bytes : Bytes)
    (pre : List Effect) (h : (env.writeFile.toBool && env.setHeader.toBool) = false) :
    ∃ e, writeAndSend env gpath name mime bytes pre =
      (pre ++ [Effect.writeFile gpath bytes env.writeFile.toBool], Except.error e) := by
  rcases env with ⟨dn, b, x, j, pz, dx, jp, rd, g, cv, wf, sh⟩
  cases wf <;> cases sh <;> simp_all [writeAndSend, Except.toBool]

/-- The effects of the write and the headers: one call of
`fs.writeFileSync`, whatever happens. -/
theorem writeAndSend_effects (env : Env) (gpath name mime : String) (bytes : Bytes)
    (pre : List Effect) :
    (writeAndSend env gpath name mime bytes pre).1 =
      pre ++ [Effect.writeFile gpath bytes env.writeFile.toBool] := by
  rcases env with ⟨dn, b, x, j, pz, dx, jp, rd, g, cv, wf, sh⟩
  cases wf <;> cases sh <;> simp [writeAndSend, Except.toBool]

/-- The format branch when `outputFormat` cannot be printed into the file
name. -/
theorem formatBranch_print_error (env : Env) (req : Request) (f : UploadedFile)
    (pre : List Effect) (e : JsError) (h : (outputFormat req).print = Except.error e) :
    formatBranch env req f pre = (pre, Except.error e) := by
  simp [formatBranch, h]

/-- The format branch when the requested format is not the string `pdf`. -/
theorem formatBranch_native (env : Env) (req : Request) (f : UploadedFile) (pre : List Effect)
    (ext : String) (hprint : (outputFormat req).print = Except.ok ext)
    (h : outputFormat req ≠ FieldValue.str "pdf") :
    formatBranch env req f pre =
      writeAndSend env (generatedPath env f ext) (outputFileName env f ext) docxMime
        env.generate pre := by
  simp [formatBranch, hprint, h]

/-- The format branch when `pdf` is requested and the backend reports an
error. -/
theorem formatBranch_pdf_error (env : Env) (req : Request) (f : UploadedFile) (pre : List Effect)
    (e : JsError) (h : outputFormat req = FieldValue.str "pdf")
    (hc : env.convert = Except.error e) :
    formatBranch env req f pre = (pre ++ [Effect.convert env.generate ".pdf"], Except.error e) := by
  simp [formatBranch, h, hc, FieldValue.print]

/-- The format branch when `pdf` is requested and the backend hands over
the converted bytes. -/
theorem formatBranch_pdf_ok (env : Env) (req : Request) (f : UploadedFile) (pre : List Effect)
    (pdfBuf : Bytes) (h : outputFormat req = FieldValue.str "pdf")
    (hc : env.convert = Except.ok pdfBuf) :
    formatBranch env req f pre =
      writeAndSend env (generatedPath env f "pdf") (outputFileName env f "pdf") pdfMime pdfBuf
        (pre ++ [Effect.convert env.generate ".pdf"]) := by
  simp [formatBranch, h, hc, FieldValue.print]

/-- When some stage did not return normally, the response has a status
other than 200 and carries neither a header nor a buffer. -/
theorem generateHandler_failed (env : Env) (req : Request) (h : allStagesOk env req = false) :
    (generateHandler env req).response.status ≠ 200 ∧
      (generateHandler env req).response.headers = [] ∧
      (∀ b, (generateHandler env req).response.payload ≠ Payload.buffer b) := by
  have key : ∀ e : JsError, (catchBlock e).status ≠ 200 ∧ (catchBlock e).headers = [] ∧
      (∀ b, (catchBlock e).payload ≠ Payload.buffer b) :=
    fun e => ⟨by simp [catchBlock_status], catchBlock_headers e, catchBlock_payload e⟩
  rcases hfile : req.file with _ | f
  · rw [generateHandler_no_file env req hfile]
    simp
  · by_cases hr : rendered env = true
    · rw [generateHandler_rendered env req f hfile hr]
      rcases hprint : (outputFormat req).print with e | ext
      · rw [formatBranch_print_error env req f _ e hprint]
        exact key e
      · by_cases hp : outputFormat req = FieldValue.str "pdf"
        · rcases hc : env.convert with e | pdfBuf
          · rw [formatBranch_pdf_error env req f _ e hp hc]
            exact key e
          · have hws : (env.writeFile.toBool && env.setHeader.toBool) = false := by
              simpa [allStagesOk, writeReached, hfile, hr, hp, hc, Except.toBool,
                FieldValue.print] using h
            obtain ⟨e, he⟩ := writeAndSend_throw env (generatedPath env f "pdf")
              (outputFileName env f "pdf") pdfMime pdfBuf
              ([Effect.readFile f.path] ++ [Effect.convert env.generate ".pdf"]) hws
            rw [formatBranch_pdf_ok env req f _ pdfBuf hp hc, he]
            exact key e
        · have hws : (env.writeFile.toBool && env.setHeader.toBool) = false := by
            simpa [allStagesOk, writeReached, hfile, hr, hprint, hp, Except.toBool] using h
          obtain ⟨e, he⟩ := writeAndSend_throw env (generatedPath env f ext)
            (outputFileName env f ext) docxMime env.generate [Effect.readFile f.path] hws
          rw [formatBranch_native env req f _ ext hprint hp, he]
          exact key e
    · obtain ⟨e, he⟩ := generateHandler_not_rendered env req f hfile (by simpa using hr)
      rw [he]
      exact key e

/-- A response with status 200, or with a buffer for body, is sent only
when every stage returned normally. -/
theorem success_needs_all_stages (env : Env) (req : Request)
    (h : (generateHandler env req).response.status = 200 ∨
      ∃ b, (generateHandler env req).response.payload = Payload.buffer b) :
    allStagesOk env req = true := by
  by_contra hall
  have hfalse : allStagesOk env req = false := by simpa using hall
  obtain ⟨hs, _, hb⟩ := generateHandler_failed env req hfalse
  rcases h with h | ⟨b, h⟩
  · exact hs h
  · exact hb b h

/-- The response when every stage returned normally: the success response
with the name built from the printed format; the converted bytes with the
MIME type of `pdf` when the format is the string `pdf`, the rendered
package with the MIME type of the native format otherwise. -/
theorem generateHandler_success (env : Env) (req : Request) (h : allStagesOk env req = true) :
    ∃ f ext, req.file = some f ∧ (outputFormat req).print = Except.ok ext ∧
      ((outputFormat req = FieldValue.str "pdf" ∧ ext = "pdf" ∧
          ∃ pdfBuf, env.convert = Except.ok pdfBuf ∧
            (generateHandler env req).response =
              successResponse (outputFileName env f ext) pdfMime pdfBuf) ∨
        (outputFormat req ≠ FieldValue.str "pdf" ∧
          (generateHandler env req).response =
            successResponse (outputFileName env f ext) docxMime env.generate)) := by
  simp only [allStagesOk, writeReached, Bool.and_eq_true, Bool.or_eq_true, bne_iff_ne, ne_eq] at h
  obtain ⟨⟨⟨⟨⟨hsome, hr⟩, hprint⟩, hfmt⟩, hw⟩, hh⟩ := h
  obtain ⟨f, hf⟩ := Option.isSome_iff_exists.mp hsome
  rcases hp : (outputFormat req).print with e | ext
  · simp [hp, Except.toBool] at hprint
  · refine ⟨f, ext, hf, rfl, ?_⟩
    rw [generateHandler_rendered env req f hf hr]
    by_cases hpdf : outputFormat req = FieldValue.str "pdf"
    · have hext : ext = "pdf" := by
        rw [hpdf] at hp
        simpa [FieldValue.print] using hp.symm
      rcases hc : env.convert with e | pdfBuf
      · simp [hpdf, hc, Except.toBool] at hfmt
      · left
        refine ⟨hpdf, hext, pdfBuf, rfl, ?_⟩
        rw [formatBranch_pdf_ok env req f _ pdfBuf hpdf hc, writeAndSend_ok env _ _ _ _ _ hw hh,
          hext]
    · right
      refine ⟨hpdf, ?_⟩
      rw [formatBranch_native env req f _ ext hp hpdf, writeAndSend_ok env _ _ _ _ _ hw hh]

/-- The effects of a run with an upload: the read, then what the format
branch did (a conversion, a write, both or neither), then the unlink. -/
theorem generateHandler_effects (env : Env) (req : Request) (f : UploadedFile)
    (hf : req.file = some f) :
    (generateHandler env req).effects = [Effect.readFile f.path, Effect.unlink f.path] ∨
    (generateHandler env req).effects =
      [Effect.readFile f.path, Effect.convert env.generate ".pdf", Effect.unlink f.path] ∨
    (∃ gpath data, (generateHandler env req).effects =
      [Effect.readFile f.path, Effect.convert env.generate ".pdf",
        Effect.writeFile gpath data env.writeFile.toBool, Effect.unlink f.path]) ∨
    (∃ gpath data, (generateHandler env req).effects =
      [Effect.readFile f.path, Effect.writeFile gpath data env.writeFile.toBool,
        Effect.unlink f.path]) := by
  by_cases hr : rendered env = true
  · rw [generateHandler_rendered env req f hf hr]
    rcases hprint : (outputFormat req).print with e | ext
    · rw [formatBranch_print_error env req f _ e hprint]
      simp
    · by_cases hp : outputFormat req = FieldValue.str "pdf"
      · rcases hc : env.convert with e | pdfBuf
        · rw [formatBranch_pdf_error env req f _ e hp hc]
          simp
        · rw [formatBranch_pdf_ok env req f _ pdfBuf hp hc, writeAndSend_effects]
          right; right; left
          exact ⟨generatedPath env f "pdf", pdfBuf, by simp⟩
      · rw [formatBranch_native env req f _ ext hprint hp, writeAndSend_effects]
        right; right; right
        exact ⟨generatedPath env f ext, env.generate, by simp⟩
  · obtain ⟨e, he⟩ := generateHandler_not_rendered env req f hf (by simpa using hr)
    rw [he]
    simp

/-- The text of an itemized report is never the generic message. -/
theorem templateErrorText_ne_generic (errors : List SubError) :
    templateErrorText errors ≠ "An internal server error occurred." := by
  intro h
  have hd := congrArg String.data h
  simp [templateErrorText, String.data_append] at hd

/-- A removed path is not on the disk. -/
theorem Disk.has_filter_self (d : Disk) (p : String) :
    Disk.has (d.filter (fun e => e.1 != p)) p = false := by
  simp [Disk.has, List.mem_filter]

/-- Removing one path leaves the others where they are. -/
theorem Disk.has_filter_other (d : Disk) (p q : String) (h : q ≠ p) :
    Disk.has (d.filter (fun e => e.1 != p)) q = Disk.has d q := by
  rw [Bool.eq_iff_iff]
  simp only [Disk.has, List.any_eq_true, List.mem_filter, beq_iff_eq, bne_iff_ne, ne_eq]
  constructor
  · rintro ⟨e, ⟨he, _⟩, hq⟩
    exact ⟨e, he, hq⟩
  · rintro ⟨e, he, hq⟩
    exact ⟨e, ⟨he, fun hp => h (hq.symm.trans hp)⟩, hq⟩

/-- Scanning a text without an occurrence of the separator yields the one
piece read so far, extended by the text. -/
theorem jsSplitGo_no_occurrence (sep : List Char) (n cur : List Char)
    (h : ¬ sep <:+: n) : jsSplitGo sep n 0 cur = [cur.reverse ++ n] := by
  induction n generalizing cur with
  | nil => simp [jsSplitGo]
  | cons c rest ih =>
    have hpre : sep.isPrefixOf (c :: rest) = false := by
      cases hb : sep.isPrefixOf (c :: rest) with
      | false => rfl
      | true => exact absurd (List.isPrefixOf_iff_prefix.mp hb).isInfix h
    have hrest : ¬ sep <:+: rest := fun hi => h (hi.trans (List.suffix_cons c rest).isInfix)
    rw [jsSplitGo, if_neg (by simp [hpre]), ih (c :: cur) hrest]
    simp

/-- Passing the rest of a matched separator. -/
theorem jsSplitGo_skip (sep : List Char) (passed rest cur : List Char) :
    jsSplitGo sep (passed ++ rest) passed.length cur = jsSplitGo sep rest 0 cur := by
  induction passed with
  | nil => rfl
  | cons c more ih => simpa [jsSplitGo] using ih

/-- Scanning a lead in which the first character of the separator does not
occur only adds the lead to the piece being read. -/
theorem jsSplitGo_lead (first : Char) (more lead rest cur : List Char)
    (h : ∀ c ∈ lead, c ≠ first) :
    jsSplitGo (first :: more) (lead ++ rest) 0 cur =
      jsSplitGo (first :: more) rest 0 (lead.reverse ++ cur) := by
  induction lead generalizing cur with
  | nil => rfl
  | cons c tail ih =>
    have hc : first ≠ c := fun e => h c (List.mem_cons_self c tail) e.symm
    have ht : ∀ x ∈ tail, x ≠ first := fun x hx => h x (List.mem_cons_of_mem c hx)
    have hpre : (first :: more).isPrefixOf (c :: (tail ++ rest)) = false := by
      simp [List.isPrefixOf, hc]
    rw [List.cons_append, jsSplitGo, if_neg (by simp [hpre]), ih (c :: cur) ht]
    simp

/-- A text made of a lead without the first character of the separator,
the separator, and a name without an occurrence of the separator splits
into the lead and the name. -/
theorem jsSplitGo_lead_sep_name (first : Char) (more lead n : List Char)
    (hlead : ∀ c ∈ lead, c ≠ first) (hn : ¬ (first :: more) <:+: n) :
    jsSplitGo (first :: more) (lead ++ (first :: more) ++ n) 0 [] = [lead, n] := by
  have hpre : (first :: more).isPrefixOf (first :: (more ++ n)) = true := by
    rw [List.isPrefixOf_iff_prefix]
    exact ⟨n, rfl⟩
  rw [List.append_assoc, jsSplitGo_lead first more lead _ [] hlead, List.cons_append, jsSplitGo,
    if_pos hpre]
  have hlen : (first :: more).length - 1 = more.length := by simp
  rw [hlen, jsSplitGo_skip, jsSplitGo_no_occurrence _ _ _ hn]
  simp

/-- A path written by a call that returned is on the disk. -/
theorem Disk.has_write (d : Disk) (p : String) (data : Bytes) :
    Disk.has (Disk.step d (Effect.writeFile p data true)) p = true := by
  simp [Disk.has, Disk.step]

/-! ## The claims -/

/-! ### C1. Missing keys -/

/-- C1, as the code has it: the template uses `name` and `amount`, the
value set defines `name` only, so `amount` is unresolved; `doc.render`
returns normally (Docxtemplater is constructed with `paragraphLoop` and
`linebreaks` only, and with its default settings it prints a missing value
instead of throwing), and the handler sends the rendered package with
status 200. -/
theorem missing_key_document_sent :
    okEnv.docxtemplater = Except.ok ["name", "amount"] ∧
      okEnv.jsonParse = Except.ok [("name", "Ada")] ∧
      unresolvedKeys ["name", "amount"] [("name", "Ada")] = ["amount"] ∧
      (generateHandler okEnv (sampleRequest none)).response.status = 200 ∧
      (generateHandler okEnv (sampleRequest none)).response.payload =
        Payload.buffer okEnv.generate :=
  ⟨rfl, rfl, by decide, by decide, by decide⟩

/-- C1 amended: the handler does not check the value set against the keys
of the template; what a missing key leads to is left to `doc.render`.  For
a request whose value set lacks a key that the template uses, the handler
sends a document, with status 200, exactly when every stage it runs
returns normally: then the body is the rendered package, or its conversion
when `pdf` is requested.  When some stage throws, the response has another
status and carries no buffer; and when it is `doc.render` that throws an
error with `properties.errors`, the response is status 500 with
`Template Error: \n` and the explanations of the renderer. -/
theorem missing_key_left_to_renderer (env : Env) (req : Request)
    (keys : List String) (values : List (String × String))
    (hd : env.docxtemplater = Except.ok keys) (hj : env.jsonParse = Except.ok values)
    (_hmiss : unresolvedKeys keys values ≠ []) :
    (allStagesOk env req = true →
      (generateHandler env req).response.status = 200 ∧
      ((generateHandler env req).response.payload = Payload.buffer env.generate ∨
        ∃ pdfBuf, env.convert = Except.ok pdfBuf ∧
          (generateHandler env req).response.payload = Payload.buffer pdfBuf)) ∧
    (allStagesOk env req = false →
      (generateHandler env req).response.status ≠ 200 ∧
      ∀ b, (generateHandler env req).response.payload ≠ Payload.buffer b) ∧
    (∀ (f : UploadedFile) (errors : List SubError), req.file = some f →
      env.pizzip.toBool = true → env.render = Except.error (JsError.itemized errors) →
      (generateHandler env req).response =
        { status := 500, headers := [], payload := Payload.text (templateErrorText errors) }) := by
  refine ⟨?_, ?_, ?_⟩
  · intro hall
    obtain ⟨f, ext, _, _, h | h⟩ := generateHandler_success env req hall
    · obtain ⟨_, _, pdfBuf, hc, hresp⟩ := h
      rw [hresp]
      exact ⟨rfl, Or.inr ⟨pdfBuf, hc, rfl⟩⟩
    · rw [h.2]
      exact ⟨rfl, Or.inl rfl⟩
  · intro hall
    obtain ⟨hs, _, hb⟩ := generateHandler_failed env req hall
    exact ⟨hs, hb⟩
  · intro f errors hf hz hr
    have hd2 : env.docxtemplater.toBool = true := by rw [hd]; rfl
    have hj2 : env.jsonParse.toBool = true := by rw [hj]; rfl
    rw [generateHandler_early_throw env req f _ hf (Or.inr (Or.inr (Or.inr ⟨hz, hd2, hj2, hr⟩)))]
    rfl

/-- The amended C1 on concrete runs with the key `amount` unresolved: a
renderer that returns, one that throws an itemized error, and the text
reported then. -/
theorem missing_key_left_to_renderer_witness :
    ((generateHandler okEnv (sampleRequest none)).response.status = 200 ∧
      ((generateHandler okEnv (sampleRequest none)).response.payload =
          Payload.buffer okEnv.generate ∨
        ∃ pdfBuf, okEnv.convert = Except.ok pdfBuf ∧
          (generateHandler okEnv (sampleRequest none)).response.payload =
            Payload.buffer pdfBuf)) ∧
    ((generateHandler itemizedEnv (sampleRequest none)).response.status ≠ 200 ∧
      ∀ b, (generateHandler itemizedEnv (sampleRequest none)).response.payload ≠
        Payload.buffer b) ∧
    (generateHandler itemizedEnv (sampleRequest none)).response =
      { status := 500
        headers := []
        payload := Payload.text (templateErrorText
          [{ explanation := "The tag beginning with \"\x7bnam\" is unclosed" },
           { explanation := "The tag \"amount\" is closed by the tag \"total\"" }]) } :=
  ⟨(missing_key_left_to_renderer okEnv (sampleRequest none) ["name", "amount"]
      [("name", "Ada")] rfl rfl (by decide)).1 rfl,
    (missing_key_left_to_renderer itemizedEnv (sampleRequest none) ["name", "amount"]
      [("name", "Ada")] rfl rfl (by decide)).2.1 rfl,
    (missing_key_left_to_renderer itemizedEnv (sampleRequest none) ["name", "amount"]
      [("name", "Ada")] rfl rfl (by decide)).2.2 sampleFile _ rfl rfl rfl⟩

/-! ### C2. The native format -/

set_option maxRecDepth 100000 in
/-- C2, as the code has it: a file is uploaded under a name of 241 letters,
the archive opens, the data parses, rendering returns and no
`outputFormat` is given, yet `fs.writeFileSync` throws on the output file
name of 256 characters and the response is status 500 with the fixed text,
not the rendered package. -/
theorem native_write_failure_answers_500 :
    longRequest.file = some longFile ∧ rendered longNameEnv = true ∧
      longRequest.body.outputFormat = none ∧
      (outputFileName longNameEnv longFile "docx").length = 256 ∧
      (generateHandler longNameEnv longRequest).response =
        { status := 500, headers := [], payload := Payload.text "An internal server error occurred." } ∧
      (generateHandler longNameEnv longRequest).response.payload ≠
        Payload.buffer longNameEnv.generate :=
  ⟨rfl, rfl, rfl, by decide, rfl, by decide⟩

/-- C2 amended: when a file was uploaded, the archive opened, the data
parsed and rendering returned, and the requested format is the native one
(`outputFormat` absent, empty or `docx`), `libre.convert` is not called;
and if moreover `fs.writeFileSync` of the output copy and `res.setHeader`
of the `Content-Disposition` value return normally, the response has the
default status and its body is the rendered package `buf` itself.  If one
of these two calls throws, the response is status 500 without a buffer. -/
theorem native_format_is_passthrough (env : Env) (req : Request) (f : UploadedFile)
    (hf : req.file = some f) (hr : rendered env = true)
    (hfmt : req.body.outputFormat = none ∨ req.body.outputFormat = some (FieldValue.str "") ∨
      req.body.outputFormat = some (FieldValue.str "docx")) :
    convertCalls (generateHandler env req).effects = 0 ∧
    ((env.writeFile.toBool && env.setHeader.toBool) = true →
      (generateHandler env req).response.payload = Payload.buffer env.generate ∧
      (generateHandler env req).response.status = 200) ∧
    ((env.writeFile.toBool && env.setHeader.toBool) = false →
      (generateHandler env req).response.status = 500 ∧
      ∀ b, (generateHandler env req).response.payload ≠ Payload.buffer b) := by
  have hfmt2 : outputFormat req = FieldValue.str "docx" := by
    rcases hfmt with h | h | h <;> simp [outputFormat, h, FieldValue.truthy]
  have hn : outputFormat req ≠ FieldValue.str "pdf" := by rw [hfmt2]; decide
  have hprint : (outputFormat req).print = Except.ok "docx" := by rw [hfmt2]; rfl
  rw [generateHandler_rendered env req f hf hr, formatBranch_native env req f _ "docx" hprint hn]
  refine ⟨?_, ?_, ?_⟩
  · rw [writeAndSend_effects]
    simp [convertCalls]
  · intro h
    simp only [Bool.and_eq_true] at h
    rw [writeAndSend_ok env _ _ _ _ _ h.1 h.2]
    exact ⟨rfl, rfl⟩
  · intro h
    obtain ⟨e, he⟩ := writeAndSend_throw env (generatedPath env f "docx")
      (outputFileName env f "docx") docxMime env.generate [Effect.readFile f.path] h
    rw [he]
    exact ⟨catchBlock_status e, catchBlock_payload e⟩

/-- The amended C2 on concrete runs without an `outputFormat` field: one in
which the write and the header succeed, one in which the write throws on
the long name. -/
theorem native_format_is_passthrough_witness :
    convertCalls (generateHandler okEnv (sampleRequest none)).effects = 0 ∧
    ((generateHandler okEnv (sampleRequest none)).response.payload = Payload.buffer sampleBuf ∧
      (generateHandler okEnv (sampleRequest none)).response.status = 200) ∧
    ((generateHandler longNameEnv longRequest).response.status = 500 ∧
      ∀ b, (generateHandler longNameEnv longRequest).response.payload ≠ Payload.buffer b) :=
  ⟨(native_format_is_passthrough okEnv (sampleRequest none) sampleFile rfl rfl (Or.inl rfl)).1,
    (native_format_is_passthrough okEnv (sampleRequest none) sampleFile rfl rfl
      (Or.inl rfl)).2.1 rfl,
    (native_format_is_passthrough longNameEnv longRequest longFile rfl rfl
      (Or.inl rfl)).2.2 rfl⟩

/-! ### C3. The suggested file name -/

/-- C3, as the code has it, at `txt`: the body is the native package and
the suggested name ends in `txt`, not in `docx`. -/
theorem native_body_named_by_request :
    (generateHandler okEnv (sampleRequest (some "txt"))).response.status = 200 ∧
      (generateHandler okEnv (sampleRequest (some "txt"))).response.payload =
        Payload.buffer okEnv.generate ∧
      dispositionOf (generateHandler okEnv (sampleRequest (some "txt"))).response =
        some "attachment; filename=letter-generated.txt" ∧
      dispositionOf (generateHandler okEnv (sampleRequest (some "txt"))).response ≠
        some ("attachment; filename=" ++
          (okEnv.basename "letter.docx" (okEnv.extname "letter.docx") ++ "-generated." ++ "docx")) := by
  decide

/-- C3 amended: for every response with status 200 a file was uploaded and
the `Content-Disposition` header is `attachment; filename=` followed by
the stem `path.basename(name, path.extname(name))`, `-generated.` and the
text that the template literal makes of `outputFormat`, which is `docx`
when the field is absent or empty.  When the body is the converted
document, `outputFormat` is the string `pdf` and so is the extension;
otherwise the body is the native package and the extension is whatever
was requested. -/
theorem download_name_follows_output_format (env : Env) (req : Request)
    (h : (generateHandler env req).response.status = 200) :
    ∃ f ext, req.file = some f ∧ (outputFormat req).print = Except.ok ext ∧
      dispositionOf (generateHandler env req).response =
        some ("attachment; filename=" ++
          (env.basename f.originalname (env.extname f.originalname) ++ "-generated." ++ ext)) ∧
      ((outputFormat req = FieldValue.str "pdf" ∧ ext = "pdf" ∧
          ∃ pdfBuf, env.convert = Except.ok pdfBuf ∧
            (generateHandler env req).response.payload = Payload.buffer pdfBuf) ∨
        (outputFormat req ≠ FieldValue.str "pdf" ∧
          (generateHandler env req).response.payload = Payload.buffer env.generate)) := by
  have hall : allStagesOk env req = true := success_needs_all_stages env req (Or.inl h)
  obtain ⟨f, ext, hf, hprint, hcase⟩ := generateHandler_success env req hall
  refine ⟨f, ext, hf, hprint, ?_, ?_⟩
  · rcases hcase with ⟨_, _, pdfBuf, _, hresp⟩ | ⟨_, hresp⟩ <;>
      rw [hresp] <;>
      simp [dispositionOf, successResponse, contentDisposition, outputFileName]
  · rcases hcase with ⟨hp, hext, pdfBuf, hc, hresp⟩ | ⟨hp, hresp⟩
    · exact Or.inl ⟨hp, hext, pdfBuf, hc, by rw [hresp]; rfl⟩
    · exact Or.inr ⟨hp, by rw [hresp]; rfl⟩

/-- The amended C3 on a successful `pdf` run. -/
theorem download_name_follows_output_format_witness :
    (generateHandler okEnv (sampleRequest (some "pdf"))).response.status = 200 ∧
    ∃ f ext, (sampleRequest (some "pdf")).file = some f ∧
      (outputFormat (sampleRequest (some "pdf"))).print = Except.ok ext ∧
      dispositionOf (generateHandler okEnv (sampleRequest (some "pdf"))).response =
        some ("attachment; filename=" ++
          (okEnv.basename f.originalname (okEnv.extname f.originalname) ++ "-generated." ++ ext)) ∧
      ((outputFormat (sampleRequest (some "pdf")) = FieldValue.str "pdf" ∧ ext = "pdf" ∧
          ∃ pdfBuf, okEnv.convert = Except.ok pdfBuf ∧
            (generateHandler okEnv (sampleRequest (some "pdf"))).response.payload =
              Payload.buffer pdfBuf) ∨
        (outputFormat (sampleRequest (some "pdf")) ≠ FieldValue.str "pdf" ∧
          (generateHandler okEnv (sampleRequest (some "pdf"))).response.payload =
            Payload.buffer okEnv.generate)) :=
  ⟨rfl, download_name_follows_output_format okEnv (sampleRequest (some "pdf")) rfl⟩

/-! ### C4. Itemized template errors -/

/-- C4: when `doc.render` throws an error with a list `properties.errors`,
the handler answers with status 500 and the body `Template Error: \n`
followed by the explanations of all the errors, in their order, joined by
a line feed. -/
theorem itemized_render_error_reported (env : Env) (req : Request) (f : UploadedFile)
    (errors : List SubError) (hf : req.file = some f)
    (hz : env.pizzip.toBool = true) (hd : env.docxtemplater.toBool = true)
    (hj : env.jsonParse.toBool = true)
    (hr : env.render = Except.error (JsError.itemized errors)) :
    (generateHandler env req).response =
      { status := 500
        headers := []
        payload := Payload.text
          ("Template Error: \n" ++ String.intercalate "\n" (errors.map SubError.explanation)) } := by
  rw [generateHandler_early_throw env req f _ hf (Or.inr (Or.inr (Or.inr ⟨hz, hd, hj, hr⟩)))]
  rfl

/-- The report of C4 on a run with two itemized problems. -/
theorem itemized_render_error_reported_witness :
    (generateHandler itemizedEnv (sampleRequest none)).response =
      { status := 500
        headers := []
        payload := Payload.text
          ("Template Error: \n" ++ String.intercalate "\n"
            ["The tag beginning with \"\x7bnam\" is unclosed",
             "The tag \"amount\" is closed by the tag \"total\""]) } :=
  itemized_render_error_reported itemizedEnv (sampleRequest none) sampleFile _ rfl rfl rfl rfl rfl

/-! ### C5. Failed conversion -/

/-- C5: when `pdf` is requested, rendering returned and the conversion
backend reports an error, the handler answers with status 500, the body is
not a buffer (so not the rendered native package), no header is set (so no
`Content-Disposition` file name), and `fs.writeFileSync` is not called, so
nothing is written into the generated directory.  And a response with status 200, or one whose body is a buffer,
is sent only if every stage returned normally. -/
theorem conversion_failure_no_fallback (env : Env) (req : Request) :
    (∀ (f : UploadedFile) (e : JsError), req.file = some f → rendered env = true →
      outputFormat req = FieldValue.str "pdf" → env.convert = Except.error e →
        (generateHandler env req).response.status = 500 ∧
        (∀ b, (generateHandler env req).response.payload ≠ Payload.buffer b) ∧
        (generateHandler env req).response.headers = [] ∧
        dispositionOf (generateHandler env req).response = none ∧
        writtenPaths (generateHandler env req).effects = []) ∧
    (((generateHandler env req).response.status = 200 ∨
        ∃ b, (generateHandler env req).response.payload = Payload.buffer b) →
      allStagesOk env req = true) := by
  constructor
  · intro f e hf hr hfmt hc
    rw [generateHandler_rendered env req f hf hr, formatBranch_pdf_error env req f _ e hfmt hc]
    refine ⟨catchBlock_status e, catchBlock_payload e, catchBlock_headers e, ?_, ?_⟩
    · simp [dispositionOf, catchBlock_headers]
    · simp [writtenPaths]
  · exact success_needs_all_stages env req

/-- The two parts of C5 on concrete runs: a failed conversion, and a
successful `pdf` run. -/
theorem conversion_failure_no_fallback_witness :
    ((generateHandler convertFailEnv (sampleRequest (some "pdf"))).response.status = 500 ∧
      (∀ b, (generateHandler convertFailEnv (sampleRequest (some "pdf"))).response.payload ≠
        Payload.buffer b) ∧
      (generateHandler convertFailEnv (sampleRequest (some "pdf"))).response.headers = [] ∧
      dispositionOf (generateHandler convertFailEnv (sampleRequest (some "pdf"))).response = none ∧
      writtenPaths (generateHandler convertFailEnv (sampleRequest (some "pdf"))).effects = []) ∧
    allStagesOk okEnv (sampleRequest (some "pdf")) = true :=
  ⟨(conversion_failure_no_fallback convertFailEnv (sampleRequest (some "pdf"))).1
      sampleFile (JsError.plain "soffice exited with code 1") rfl rfl rfl rfl,
    (conversion_failure_no_fallback okEnv (sampleRequest (some "pdf"))).2 (Or.inl rfl)⟩

/-! ### C6. Kinds of failure -/

/-- C6, as the code has it: a corrupt archive, a conversion that timed out,
a backend that failed and a backend that is missing all get the same
response. -/
theorem failure_kinds_same_response :
    (generateHandler corruptEnv (sampleRequest (some "pdf"))).response =
        (generateHandler timeoutEnv (sampleRequest (some "pdf"))).response ∧
      (generateHandler timeoutEnv (sampleRequest (some "pdf"))).response =
        (generateHandler convertFailEnv (sampleRequest (some "pdf"))).response ∧
      (generateHandler convertFailEnv (sampleRequest (some "pdf"))).response =
        (generateHandler unavailableEnv (sampleRequest (some "pdf"))).response := by
  decide

/-- C6 amended: the failure response tells two kinds apart and no more.
Whenever the `try` block throws an error without `properties.errors`, at
whatever stage (archive, data, rendering or conversion), the response is
status 500 with the fixed text `An internal server error occurred.`, and
that response differs from the one given for every itemized template
error. -/
theorem plain_failures_share_response (env : Env) (req : Request) (message : String)
    (h : (tryBlock env req).2 = Except.error (JsError.plain message)) :
    (generateHandler env req).response =
        { status := 500, headers := [], payload := Payload.text "An internal server error occurred." } ∧
      ∀ errors, catchBlock (JsError.itemized errors) ≠ (generateHandler env req).response := by
  have hresp : (generateHandler env req).response =
      { status := 500, headers := [], payload := Payload.text "An internal server error occurred." } := by
    simp [generateHandler, h, catchBlock]
  refine ⟨hresp, ?_⟩
  intro errors heq
  rw [hresp] at heq
  have hp := congrArg Response.payload heq
  simp only [catchBlock, Payload.text.injEq] at hp
  exact templateErrorText_ne_generic errors hp

/-- The amended C6 on a conversion that timed out. -/
theorem plain_failures_share_response_witness :
    (generateHandler timeoutEnv (sampleRequest (some "pdf"))).response =
        { status := 500, headers := [], payload := Payload.text "An internal server error occurred." } ∧
      ∀ errors, catchBlock (JsError.itemized errors) ≠
        (generateHandler timeoutEnv (sampleRequest (some "pdf"))).response :=
  plain_failures_share_response timeoutEnv (sampleRequest (some "pdf")) "conversion timed out" rfl

/-! ### C7. The format selector -/

/-- C7, as the code has it, at `PDF`: a request whose `outputFormat` is the
non-empty string `PDF`, neither `docx` nor `pdf`, gets a success response
carrying the rendered package. -/
theorem unlisted_format_accepted :
    (sampleRequest (some "PDF")).body.outputFormat = some (FieldValue.str "PDF") ∧
      (generateHandler okEnv (sampleRequest (some "PDF"))).response =
        { status := 200
          headers := [("Content-Disposition", "attachment; filename=letter-generated.PDF"),
            ("Content-Type", docxMime)]
          payload := Payload.buffer sampleBuf } := by
  decide

/-- C7 amended: the handler does not restrict `outputFormat`; it only
tests it against `pdf`.  For a request whose `outputFormat` is a non-empty
string other than `pdf`, with a file uploaded and rendering returned, no
conversion is attempted; if `fs.writeFileSync` of the output copy and
`res.setHeader` of the `Content-Disposition` value return normally, the
response is the success response with the rendered package, the MIME type
of the native format and a file name whose extension is the string given;
if one of them throws, the response is status 500 without a buffer. -/
theorem unlisted_format_sent_as_native (env : Env) (req : Request) (f : UploadedFile)
    (s : String) (hf : req.file = some f) (hr : rendered env = true)
    (hs : req.body.outputFormat = some (FieldValue.str s)) (hne : s ≠ "") (hpdf : s ≠ "pdf") :
    convertCalls (generateHandler env req).effects = 0 ∧
    ((env.writeFile.toBool && env.setHeader.toBool) = true →
      (generateHandler env req).response =
        { status := 200
          headers := [("Content-Disposition", "attachment; filename=" ++
              (env.basename f.originalname (env.extname f.originalname) ++ "-generated." ++ s)),
            ("Content-Type", docxMime)]
          payload := Payload.buffer env.generate }) ∧
    ((env.writeFile.toBool && env.setHeader.toBool) = false →
      (generateHandler env req).response.status = 500 ∧
      ∀ b, (generateHandler env req).response.payload ≠ Payload.buffer b) := by
  have hfmt : outputFormat req = FieldValue.str s := by
    simp [outputFormat, hs, FieldValue.truthy, hne]
  have hn : outputFormat req ≠ FieldValue.str "pdf" := by
    rw [hfmt]
    simpa using hpdf
  have hprint : (outputFormat req).print = Except.ok s := by rw [hfmt]; rfl
  rw [generateHandler_rendered env req f hf hr, formatBranch_native env req f _ s hprint hn]
  refine ⟨?_, ?_, ?_⟩
  · rw [writeAndSend_effects]
    simp [convertCalls]
  · intro h
    simp only [Bool.and_eq_true] at h
    rw [writeAndSend_ok env _ _ _ _ _ h.1 h.2]
    rfl
  · intro h
    obtain ⟨e, he⟩ := writeAndSend_throw env (generatedPath env f s)
      (outputFileName env f s) docxMime env.generate [Effect.readFile f.path] h
    rw [he]
    exact ⟨catchBlock_status e, catchBlock_payload e⟩

/-- The amended C7 on concrete runs: a request for `txt`, which succeeds,
and a request for `a/b`, whose output path lies in a directory that does
not exist. -/
theorem unlisted_format_sent_as_native_witness :
    convertCalls (generateHandler okEnv (sampleRequest (some "txt"))).effects = 0 ∧
    (generateHandler okEnv (sampleRequest (some "txt"))).response =
      { status := 200
        headers := [("Content-Disposition", "attachment; filename=" ++
            (posixBasename "letter.docx" (posixExtname "letter.docx") ++ "-generated." ++ "txt")),
          ("Content-Type", docxMime)]
        payload := Payload.buffer sampleBuf } ∧
    ((generateHandler missingDirEnv (sampleRequest (some "a/b"))).response.status = 500 ∧
      ∀ b, (generateHandler missingDirEnv (sampleRequest (some "a/b"))).response.payload ≠
        Payload.buffer b) :=
  ⟨(unlisted_format_sent_as_native okEnv (sampleRequest (some "txt")) sampleFile "txt"
      rfl rfl rfl (by decide) (by decide)).1,
    (unlisted_format_sent_as_native okEnv (sampleRequest (some "txt")) sampleFile "txt"
      rfl rfl rfl (by decide) (by decide)).2.1 rfl,
    (unlisted_format_sent_as_native missingDirEnv (sampleRequest (some "a/b")) sampleFile "a/b"
      rfl rfl rfl (by decide) (by decide)).2.2 rfl⟩

/-! ### C8. The staged upload -/

/-- C8: the handler calls `fs.unlinkSync` exactly once, on `req.file.path`,
when a file was uploaded, whatever path the run takes, and not at all when
no file was uploaded. -/
theorem staged_upload_unlinked_once (env : Env) (req : Request) :
    unlinkedPaths (generateHandler env req).effects =
      (req.file.map UploadedFile.path).toList := by
  rcases hfile : req.file with _ | f
  · rw [generateHandler_no_file env req hfile]
    rfl
  · rcases generateHandler_effects env req f hfile with h | h | ⟨gpath, data, h⟩ |
        ⟨gpath, data, h⟩ <;>
      rw [h] <;> simp [unlinkedPaths]

/-! ### C9. Files left on disk -/

set_option maxRecDepth 8000 in
/-- C9, as the code has it: the output file that the handler writes into
the generated directory, absent before the request, is still on the disk
when the handler has finished. -/
theorem generated_file_left_on_disk :
    writtenPaths (generateHandler okEnv (sampleRequest none)).effects =
        ["/srv/app/server/generated/letter-generated.docx"] ∧
      Disk.has sampleDisk "/srv/app/server/generated/letter-generated.docx" = false ∧
      Disk.has (Disk.run sampleDisk (generateHandler okEnv (sampleRequest none)).effects)
        "/srv/app/server/generated/letter-generated.docx" = true :=
  ⟨rfl, rfl, rfl⟩

/-- C9 amended: when a file was uploaded, the staged upload is not on the
disk when the handler has finished, whatever the outcome.  The handler
writes an output file exactly when every stage before the write returned
normally and `fs.writeFileSync` itself returned: one file, at
`generatedPath`.  It never removes what it wrote: every path it wrote,
other than the path of the staged upload, is still on the disk at the
end. -/
theorem staged_upload_removed_output_left (env : Env) (req : Request) (f : UploadedFile)
    (d : Disk) (hf : req.file = some f) :
    Disk.has (Disk.run d (generateHandler env req).effects) f.path = false ∧
      doneWrites (generateHandler env req).effects =
        (match (outputFormat req).print with
          | Except.ok ext =>
              if writeReached env req && env.writeFile.toBool then [generatedPath env f ext]
              else []
          | Except.error _ => []) ∧
      (doneWrites (generateHandler env req).effects).all
        (fun q => q == f.path ||
          Disk.has (Disk.run d (generateHandler env req).effects) q) = true := by
  have hdone : ∀ (p : String) (data : Bytes) (b : Bool) (rest : List Effect),
      doneWrites (Effect.writeFile p data b :: rest) =
        if b then p :: doneWrites rest else doneWrites rest := by
    intro p data b rest
    cases b <;> simp [doneWrites]
  have hkept : ∀ (pre : Disk) (p : String) (data : Bytes), p ≠ f.path →
      Disk.has (Disk.step (Disk.step pre (Effect.writeFile p data true)) (Effect.unlink f.path))
        p = true := by
    intro pre p data hne
    rw [show Disk.step (Disk.step pre (Effect.writeFile p data true)) (Effect.unlink f.path) =
        List.filter (fun e => e.1 != f.path) (Disk.step pre (Effect.writeFile p data true))
      from rfl, Disk.has_filter_other _ _ _ hne, Disk.has_write]
  refine ⟨?_, ?_, ?_⟩
  · rcases generateHandler_effects env req f hf with h | h | ⟨gpath, data, h⟩ | ⟨gpath, data, h⟩ <;>
      rw [h] <;> simp [Disk.run, Disk.step, Disk.has_filter_self]
  · by_cases hr : rendered env = true
    · rw [generateHandler_rendered env req f hf hr]
      rcases hprint : (outputFormat req).print with e | ext
      · rw [formatBranch_print_error env req f _ e hprint]
        simp [doneWrites]
      · by_cases hp : outputFormat req = FieldValue.str "pdf"
        · have hext : ext = "pdf" := by
            rw [hp] at hprint
            simpa [FieldValue.print] using hprint.symm
          rcases hc : env.convert with e | pdfBuf
          · rw [formatBranch_pdf_error env req f _ e hp hc]
            simp [doneWrites, writeReached, hp, hc, Except.toBool]
          · rw [formatBranch_pdf_ok env req f _ pdfBuf hp hc, writeAndSend_effects]
            cases hw : env.writeFile.toBool <;>
              simp [doneWrites, writeReached, hf, hr, hp, hc, hw, hext, Except.toBool,
                FieldValue.print]
        · rw [formatBranch_native env req f _ ext hprint hp, writeAndSend_effects]
          cases hw : env.writeFile.toBool <;>
            simp [doneWrites, writeReached, hf, hr, hp, hw, hprint, Except.toBool]
    · obtain ⟨e, he⟩ := generateHandler_not_rendered env req f hf (by simpa using hr)
      rw [he]
      have hr2 : rendered env = false := by simpa using hr
      cases (outputFormat req).print <;> simp [doneWrites, writeReached, hr2]
  · rw [List.all_eq_true]
    intro q hq
    by_cases hne : q = f.path
    · simp [hne]
    · have hon : Disk.has (Disk.run d (generateHandler env req).effects) q = true := by
        rcases generateHandler_effects env req f hf with h | h | ⟨gpath, data, h⟩ |
            ⟨gpath, data, h⟩ <;>
          rw [h] at hq ⊢
        · simp [doneWrites] at hq
        · simp [doneWrites] at hq
        · cases hw : env.writeFile.toBool
          · simp [doneWrites, hw] at hq
          · simp [doneWrites, hw] at hq
            subst hq
            exact hkept _ _ _ hne
        · cases hw : env.writeFile.toBool
          · simp [doneWrites, hw] at hq
          · simp [doneWrites, hw] at hq
            subst hq
            exact hkept _ _ _ hne
      simp [hon]

/-- The amended C9 on a successful run in the native format. -/
theorem staged_upload_removed_output_left_witness :
    Disk.has (Disk.run sampleDisk (generateHandler okEnv (sampleRequest none)).effects)
        sampleFile.path = false ∧
      doneWrites (generateHandler okEnv (sampleRequest none)).effects =
        (match (outputFormat (sampleRequest none)).print with
          | Except.ok ext =>
              if writeReached okEnv (sampleRequest none) && okEnv.writeFile.toBool then
                [generatedPath okEnv sampleFile ext]
              else []
          | Except.error _ => []) ∧
      (doneWrites (generateHandler okEnv (sampleRequest none)).effects).all
        (fun q => q == sampleFile.path ||
          Disk.has (Disk.run sampleDisk (generateHandler okEnv (sampleRequest none)).effects) q) =
        true :=
  staged_upload_removed_output_left okEnv (sampleRequest none) sampleFile sampleDisk rfl

/-! ### C10. The download name -/

/-- C10: for every file name `n` without a double quote and without an
occurrence of `filename=`, the extraction of the frontend applied to the
header value that the server sets, `attachment; filename=` followed by
`n`, returns `n`. -/
theorem download_name_round_trip (n : String) (hquote : '"' ∉ n.data)
    (hsep : ¬ ("filename=" : String).data <:+: n.data) :
    extractFileName (contentDisposition n) = some n := by
  have hdata : (contentDisposition n).data =
      ("attachment; " : String).data ++ ('f' :: ("ilename=" : String).data) ++ n.data := by
    simp [contentDisposition, String.data_append]
  have hs : ("filename=" : String).data = 'f' :: ("ilename=" : String).data := by decide
  have hlead : ∀ c ∈ ("attachment; " : String).data, c ≠ 'f' := by decide
  have hsplit : jsSplit (contentDisposition n) "filename=" = ["attachment; ", n] := by
    unfold jsSplit
    rw [hdata, hs, jsSplitGo_lead_sep_name 'f' _ _ _ hlead (by rw [← hs]; exact hsep)]
    rfl
  have hfilter : n.data.filter (fun c => c != '"') = n.data := by
    rw [List.filter_eq_self]
    intro c hc
    have : c ≠ '"' := fun e => hquote (e ▸ hc)
    simpa using this
  simp [extractFileName, hsplit, stripQuotes, hfilter]

/-- The round trip of C10 on the name of a generated document. -/
theorem download_name_round_trip_witness :
    '"' ∉ ("letter-generated.docx" : String).data ∧
      ¬ ("filename=" : String).data <:+: ("letter-generated.docx" : String).data ∧
      extractFileName (contentDisposition "letter-generated.docx") =
        some "letter-generated.docx" :=
  ⟨by decide, by decide,
    download_name_round_trip "letter-generated.docx" (by decide) (by decide)⟩

end DocGen
